import Mathlib

/-
  Verification development for the lung-disease-ai inference core.

  Shallow embedding of `model/medical_insights.py` and `model/predict.py`.
  Python floats are embedded as rationals (ℚ); Python's `round(x, n)` is
  embedded as rounding `x * 10^n` to the nearest integer (Python uses
  banker's rounding at exact half points; no statement below depends on an
  exact half point).  Python dicts whose keys matter to the statements are
  embedded as association lists in insertion order.
-/

namespace LungAI

/-- Embedding of Python `round(x, n)` on rationals. -/
def pyRound (n : ℕ) (x : ℚ) : ℚ := (round (x * 10 ^ n) : ℤ) / 10 ^ n

/-- Embedding of Python `str.upper()` for ASCII strings. -/
def pyUpper (s : String) : String := ⟨s.data.map Char.toUpper⟩

/-- `CLASS_NAMES` from `model/predict.py`: the fixed ordered class set. -/
def CLASS_NAMES : List String := ["COVID19", "NORMAL", "PNEUMONIA", "TUBERCULOSIS"]

/-- `get_severity` from `model/predict.py`.  The comparison with `'NORMAL'`
is exact (case-sensitive); the thresholds are on `confidence * 100`. -/
def get_severity (prediction_label : String) (confidence : ℚ) : String :=
  if prediction_label = "NORMAL" then "N/A"
  else
    let pct := confidence * 100
    if pct ≥ 85 then "Severe"
    else if pct ≥ 65 then "Moderate"
    else "Mild"

/-- The SpO2 contribution inside `compute_clinical_risk`
(`model/medical_insights.py`).  The source guards with `if spo2:`, which in
Python is false both for `None` and for the number `0`, so a supplied
reading of exactly 0 contributes nothing. -/
def spo2_bonus (spo2 : Option ℚ) : ℚ :=
  match spo2 with
  | none => 0
  | some v => if v = 0 then 0 else if v < 85 then 50 else if v < 92 then 30 else 0

/-- The local variable `score` accumulated in `compute_clinical_risk`:
severity base 40/20/10, plus `confidence * 0.4`, plus the SpO2 bonus. -/
def clinical_risk_score (confidence : ℚ) (severity : String) (spo2 : Option ℚ) : ℚ :=
  (if severity = "Severe" then 40 else if severity = "Moderate" then 20 else 10)
    + confidence * (4 / 10) + spo2_bonus spo2

/-- `compute_clinical_risk` from `model/medical_insights.py`.  The returned
Python dict is embedded as an association list in insertion order; note the
source returns the keys `level`, `color` and `class` only (no `score` key).
The no-finding test upper-cases its input (`prediction.upper()`). -/
def compute_clinical_risk (p : String) (confidence : ℚ) (severity : String)
    (spo2 : Option ℚ := none) : List (String × String) :=
  if pyUpper p = "NORMAL" then
    [("level", "Stable"), ("color", "success"), ("class", "state-normal")]
  else
    let score := clinical_risk_score confidence severity spo2
    if score ≥ 80 then [("level", "Critical"), ("color", "danger"), ("class", "risk-critical")]
    else if score ≥ 50 then [("level", "Severe"), ("color", "orange"), ("class", "risk-severe")]
    else if score ≥ 30 then [("level", "Moderate"), ("color", "warning"), ("class", "risk-moderate")]
    else [("level", "Mild"), ("color", "info"), ("class", "risk-mild")]

/-- The SpO2 contribution as the specification words it: a supplied reading
contributes 50 below 85, 30 below 92, 0 otherwise — with no exception for a
reading of exactly 0.  Used to compare the source against the spec. -/
def spec_spo2_bonus (spo2 : Option ℚ) : ℚ :=
  match spo2 with
  | none => 0
  | some v => if v < 85 then 50 else if v < 92 then 30 else 0

/-- The risk score as the specification words it. -/
def spec_score (confidence : ℚ) (severity : String) (spo2 : Option ℚ) : ℚ :=
  (if severity = "Severe" then 40 else if severity = "Moderate" then 20 else 10)
    + confidence * (4 / 10) + spec_spo2_bonus spo2

/-- The tier thresholds of `compute_clinical_risk`, lower bounds inclusive. -/
def spec_level (score : ℚ) : String :=
  if score ≥ 80 then "Critical"
  else if score ≥ 50 then "Severe"
  else if score ≥ 30 then "Moderate"
  else "Mild"

/-- One call to `load_model` (`model/predict.py`), as a transition on the
module-global cache `_model`.  `artifact` abstracts the parsed model file;
`file_exists` is the value `os.path.exists(MODEL_PATH)` would return at call
time.  `disk_checked` records whether the call touched the filesystem. -/
structure LoadOutcome where
  result : Option ℕ
  cache : Option ℕ
  disk_checked : Bool

/-- `load_model`: if the cache is filled, return it without disk access;
otherwise check the filesystem, returning `none` (and leaving the cache
empty) when the file is absent, and loading and caching it when present. -/
def load_model (file_exists : Bool) (artifact : ℕ) (cache : Option ℕ) : LoadOutcome :=
  match cache with
  | some m => ⟨some m, some m, false⟩
  | none =>
    if file_exists then ⟨some artifact, some artifact, true⟩
    else ⟨none, none, true⟩

/-- Tail of `np.argmax`: first index of the maximum, given the index of the
next element, the best index so far and the best value so far. -/
def pyArgmaxAux : List ℚ → ℕ → ℕ → ℚ → ℕ
  | [], _, bestIdx, _ => bestIdx
  | x :: xs, i, bestIdx, bestVal =>
    if bestVal < x then pyArgmaxAux xs (i + 1) i x
    else pyArgmaxAux xs (i + 1) bestIdx bestVal

/-- `np.argmax` on a rational vector: index of the first maximum. -/
def pyArgmax : List ℚ → ℕ
  | [] => 0
  | x :: xs => pyArgmaxAux xs 1 0 x

/-- The dict returned by `predict_xray`; the informational `medical_info`
entry (a static knowledge-base record) is not embedded, no claim reads it. -/
structure PredictResult where
  prediction : String
  confidence : ℚ
  confidence_pct : ℚ
  severity : String
  probabilities : List (String × ℚ)
  risk : List (String × String)
  demo_mode : Bool

/-- Python dict assignment `d[k] = v` on an association list: overwrite in
place when the key exists, append otherwise. -/
def dictSet (d : List (String × ℚ)) (k : String) (v : ℚ) : List (String × ℚ) :=
  if d.any (fun q => q.1 = k) then
    d.map (fun q => if q.1 = k then (k, v) else q)
  else d ++ [(k, v)]

/-- The demo-mode branch of `predict_xray` as a function of the random
draws: `label = random.choice(CLASS_NAMES)`, `conf = random.uniform(0.60,
0.98)`, and `rs` the four `random.uniform(0.01, 0.1)` draws made for the
class names in order.  Mirrors the source: per-name draws rounded to 4
digits, the chosen label's entry overwritten with `round(conf, 4)`, the
dict renormalized by its total with each quotient rounded to 4 digits. -/
def demoResult (label : String) (conf : ℚ) (rs : List ℚ) : PredictResult :=
  let probs1 := dictSet (CLASS_NAMES.zip (rs.map (pyRound 4))) label (pyRound 4 conf)
  let total := (probs1.map Prod.snd).sum
  let probs := probs1.map (fun q => (q.1, pyRound 4 (q.2 / total)))
  let severity := get_severity label conf
  { prediction := label
    confidence := pyRound 4 conf
    confidence_pct := pyRound 2 (conf * 100)
    severity := severity
    probabilities := probs
    risk := compute_clinical_risk label (conf * 100) severity
    demo_mode := true }

/-- The real-inference branch of `predict_xray` as a function of the raw
model output vector `preds` (`model.predict(...)[0]`).  Python indexing
`predictions[i]` is embedded as `getD i 0`; the source indexes only inside
`range(len(CLASS_NAMES))` and the model emits one probability per class, so
theorems carry `preds.length = 4`. -/
def realResult (preds : List ℚ) : PredictResult :=
  let idx := pyArgmax preds
  let label := CLASS_NAMES.getD idx ""
  let confidence := preds.getD idx 0
  let severity := get_severity label confidence
  { prediction := label
    confidence := pyRound 4 confidence
    confidence_pct := pyRound 2 (confidence * 100)
    severity := severity
    probabilities := (List.range CLASS_NAMES.length).map
      (fun i => (CLASS_NAMES.getD i "", preds.getD i 0))
    risk := compute_clinical_risk label (confidence * 100) severity
    demo_mode := false }

/-- `predict_xray`: demo branch when `load_model` returned `None`
(`modelOut = none`), real branch on the model's output vector otherwise. -/
def predict_xray (modelOut : Option (List ℚ)) (demoLabel : String) (demoConf : ℚ)
    (demoDraws : List ℚ) : PredictResult :=
  match modelOut with
  | none => demoResult demoLabel demoConf demoDraws
  | some preds => realResult preds

/-- A Keras layer as `generate_gradcam` observes it: a name, whether it is
a `Conv2D` instance, whether it is itself a model (has a `layers`
attribute), and its sub-layers. -/
inductive Layer where
  | node (name : String) (isConv2D : Bool) (isModel : Bool) (subLayers : List Layer)

def Layer.name : Layer → String
  | .node n _ _ _ => n

def Layer.isConv2D : Layer → Bool
  | .node _ c _ _ => c

def Layer.isModel : Layer → Bool
  | .node _ _ m _ => m

def Layer.subLayers : Layer → List Layer
  | .node _ _ _ s => s

/-- The loaded model as `generate_gradcam` observes it. -/
structure PyModel where
  layers : List Layer

/-- The inner loop of the conv-layer search: scan a sub-model's layers in
reverse for the first `Conv2D`. -/
def findInnerConv (subs : List Layer) : Option String :=
  (subs.reverse.find? (fun l => l.isConv2D)).map Layer.name

/-- The outer loop of the conv-layer search over the reversed layer list.
`acc` is the running value of `last_conv_layer`.  A top-level `Conv2D`
breaks immediately; after scanning a sub-model the source breaks only when
`last_conv_layer` is truthy (a non-empty name). -/
def findConvLoop : List Layer → Option String → Option String
  | [], acc => acc
  | l :: rest, acc =>
    if l.isConv2D then some l.name
    else if l.isModel then
      let acc' := (findInnerConv l.subLayers).orElse (fun _ => acc)
      if (acc'.getD "") ≠ "" then acc' else findConvLoop rest acc'
    else findConvLoop rest acc

/-- The conv-layer search of `generate_gradcam`: iterate
`reversed(model.layers)`, descending one level into nested sub-models. -/
def findLastConv (m : PyModel) : Option String := findConvLoop m.layers.reverse none

/-- Keras `Model.get_layer(name)` on the base model, returning `none`
where the source would raise `ValueError`. -/
def getLayer (base : Layer) (n : String) : Option Layer :=
  base.subLayers.find? (fun l => l.name = n)

/-- Environment for one `generate_gradcam` call: the outcomes of its
fallible steps.  `forwardGrad` yields the conv feature map (rows = spatial
positions, columns = channels) and the pooled per-channel gradient weights;
an `error` value stands for a raised exception in that step. -/
structure GradEnv where
  preprocessOk : Except String Unit
  graphBuild : Except String Unit
  forwardGrad : Except String (List (List ℚ) × List ℚ)
  imreadOk : Except String Unit
  writeOk : List ℚ → Except String Unit

def dotProd (a b : List ℚ) : ℚ := (List.zipWith (fun x y => x * y) a b).sum

/-- `conv_outputs @ pooled[..., tf.newaxis]`: channel-weighted saliency. -/
def matVec (m : List (List ℚ)) (v : List ℚ) : List ℚ := m.map (fun row => dotProd row v)

def listMax : List ℚ → ℚ
  | [] => 0
  | x :: xs => xs.foldl max x

/-- `tf.maximum(heatmap, 0) / (tf.reduce_max(heatmap) + 1e-8)`: clip the
saliency at zero and divide by the pre-clip maximum plus `1e-8`. -/
def normalizeHeat (heat : List ℚ) : List ℚ :=
  heat.map (fun v => max v 0 / (listMax heat + 1 / 100000000))

/-- The body of `generate_gradcam` after the model is available: the value
computed by the `try` block, where `Except.error` stands for a raised
exception (caught by the caller) and `Except.ok none` for the source's
normal `return None` paths (no conv layer; `get_layer` raised `ValueError`).
An empty layer list raises `IndexError` at `model.layers[0]`; a first layer
without sub-layers raises `AttributeError` at `base_model.get_layer`. -/
def gradcam_aux (m : PyModel) (env : GradEnv) (save_path : String) :
    Except String (Option String) :=
  match env.preprocessOk with
  | Except.error e => Except.error e
  | Except.ok _ =>
    match findLastConv m with
    | none => Except.ok none
    | some convName =>
      match m.layers.head? with
      | none => Except.error "IndexError"
      | some base =>
        if base.isModel = false then Except.error "AttributeError"
        else
          match getLayer base convName with
          | none => Except.ok none
          | some _ =>
            match env.graphBuild with
            | Except.error e => Except.error e
            | Except.ok _ =>
              match env.forwardGrad with
              | Except.error e => Except.error e
              | Except.ok co =>
                let norm := normalizeHeat (matVec co.1 co.2)
                match env.imreadOk with
                | Except.error e => Except.error e
                | Except.ok _ =>
                  match env.writeOk norm with
                  | Except.error e => Except.error e
                  | Except.ok _ => Except.ok (some save_path)

/-- `generate_gradcam`: `None` when the model is unavailable; otherwise the
`try` block's value with every raised exception converted to `None`. -/
def generate_gradcam (modelOpt : Option PyModel) (env : GradEnv) (save_path : String) :
    Option String :=
  match modelOpt with
  | none => none
  | some m =>
    match gradcam_aux m env save_path with
    | Except.ok r => r
    | Except.error _ => none

/-- The upload route of `app.py` restricted to the inference core: one
request produces the classification result and, independently, the optional
heatmap path. -/
def handle_request (modelOut : Option (List ℚ)) (dl : String) (dc : ℚ) (dr : List ℚ)
    (modelOpt : Option PyModel) (env : GradEnv) (hp : String) :
    PredictResult × Option String :=
  (predict_xray modelOut dl dc dr, generate_gradcam modelOpt env hp)

lemma crs_mild (c : ℚ) (q : Option ℚ) :
    clinical_risk_score c "Mild" q = 10 + c * (4 / 10) + spo2_bonus q := by
  simp only [clinical_risk_score]
  rw [if_neg (by decide), if_neg (by decide)]

lemma crs_moderate (c : ℚ) (q : Option ℚ) :
    clinical_risk_score c "Moderate" q = 20 + c * (4 / 10) + spo2_bonus q := by
  simp only [clinical_risk_score]
  norm_num
  decide

lemma crs_severe (c : ℚ) (q : Option ℚ) :
    clinical_risk_score c "Severe" q = 40 + c * (4 / 10) + spo2_bonus q := by
  simp only [clinical_risk_score]
  norm_num

lemma ss_mild (c : ℚ) (q : Option ℚ) :
    spec_score c "Mild" q = 10 + c * (4 / 10) + spec_spo2_bonus q := by
  simp only [spec_score]
  rw [if_neg (by decide), if_neg (by decide)]

/-- C1 (counterexample): the claim's additive formula fails when the
supplied oxygen saturation is exactly 0 — the source's `if spo2:` treats it
as absent, so the score is 10 (level `Mild`) where the claim's formula
demands 10 + 50 = 60 (level `Severe`). -/
theorem clinical_risk_spo2_zero_counterexample :
    spo2_bonus (some 0) = 0 ∧ spec_spo2_bonus (some 0) = 50 ∧
    clinical_risk_score 0 "Mild" (some 0) = 10 ∧
    spec_score 0 "Mild" (some 0) = 60 ∧
    (compute_clinical_risk "PNEUMONIA" 0 "Mild" (some 0)).lookup "level" = some "Mild" ∧
    spec_level 60 = "Severe" := by
  have h : pyUpper "PNEUMONIA" ≠ "NORMAL" := by decide
  have hsc : clinical_risk_score 0 "Mild" (some 0) = 10 := by
    rw [crs_mild]
    norm_num [spo2_bonus]
  refine ⟨by norm_num [spo2_bonus], by norm_num [spec_spo2_bonus], hsc,
    by rw [ss_mild]; norm_num [spec_spo2_bonus], ?_, by norm_num [spec_level]⟩
  have hbr : compute_clinical_risk "PNEUMONIA" 0 "Mild" (some 0)
      = [("level", "Mild"), ("color", "info"), ("class", "risk-mild")] := by
    simp only [compute_clinical_risk, if_neg h, hsc]
    norm_num
  rw [hbr]
  rfl

/-- C1 (amended): for every call with a supplied spo2 distinct from 0 (a
reading of exactly 0 is treated as not supplied by the source's truthiness
guard), the no-finding case yields level `Stable` unconditionally, and
otherwise the score is 40/20/10 for Severe/Moderate/Mild plus
`confidence_pct * 0.4` plus the 50/30/0 oxygen bonus, with the level
determined by the inclusive thresholds 80/50/30. -/
theorem clinical_risk_formula (label : String) (conf : ℚ) (sev : String) (spo2 : Option ℚ)
    (hs : spo2 ≠ some 0) :
    (pyUpper label = "NORMAL" →
      (compute_clinical_risk label conf sev spo2).lookup "level" = some "Stable") ∧
    (pyUpper label ≠ "NORMAL" →
      clinical_risk_score conf sev spo2 = spec_score conf sev spo2 ∧
      (compute_clinical_risk label conf sev spo2).lookup "level"
        = some (spec_level (spec_score conf sev spo2))) := by
  have hb : spo2_bonus spo2 = spec_spo2_bonus spo2 := by
    cases spo2 with
    | none => rfl
    | some v =>
      have hv : v ≠ 0 := fun h => hs (by rw [h])
      simp [spo2_bonus, spec_spo2_bonus, hv]
  have hscore : clinical_risk_score conf sev spo2 = spec_score conf sev spo2 := by
    simp [clinical_risk_score, spec_score, hb]
  constructor
  · intro h
    simp [compute_clinical_risk, h, List.lookup]
  · intro h
    refine ⟨hscore, ?_⟩
    simp only [compute_clinical_risk, if_neg h, hscore, spec_level]
    split_ifs <;> simp [List.lookup]

/-- C1 (witness): the spec's own scenario — PNEUMONIA, Severe,
confidence 90, spo2 80 gives score 40 + 36 + 50 = 126, level `Critical`. -/
theorem clinical_risk_formula_witness :
    (compute_clinical_risk "PNEUMONIA" 90 "Severe" (some 80)).lookup "level"
      = some "Critical" := by
  have h := (clinical_risk_formula "PNEUMONIA" 90 "Severe" (some 80)
    (by simp)).2 (by decide)
  rw [h.2]
  norm_num [spec_score, spec_spo2_bonus, spec_level]

/-- C2: `get_severity` returns `N/A` iff the label is exactly `NORMAL`,
and otherwise `Severe`, `Moderate` or `Mild` by the 0.85 / 0.65 confidence
thresholds, lower bounds inclusive. -/
theorem get_severity_spec (label : String) (conf : ℚ) (h0 : 0 ≤ conf) (h1 : conf ≤ 1) :
    (get_severity label conf = "N/A" ↔ label = "NORMAL") ∧
    (label ≠ "NORMAL" →
      get_severity label conf =
        if (85 / 100 : ℚ) ≤ conf then "Severe"
        else if (65 / 100 : ℚ) ≤ conf then "Moderate"
        else "Mild") := by
  have e1 : ((85 : ℚ) ≤ conf * 100) ↔ ((85 / 100 : ℚ) ≤ conf) := by
    constructor <;> intro <;> linarith
  have e2 : ((65 : ℚ) ≤ conf * 100) ↔ ((65 / 100 : ℚ) ≤ conf) := by
    constructor <;> intro <;> linarith
  constructor
  · constructor
    · intro h
      by_contra hl
      simp only [get_severity, if_neg hl] at h
      split_ifs at h <;> simp at h
    · intro h
      simp [get_severity, h]
  · intro hl
    simp only [get_severity, if_neg hl, ge_iff_le]
    simp only [e1, e2]

/-- C2 (witness): PNEUMONIA at confidence 0.90 is `Severe`. -/
theorem get_severity_spec_witness :
    get_severity "PNEUMONIA" (9 / 10) = "Severe" := by
  have h := (get_severity_spec "PNEUMONIA" (9 / 10) (by norm_num) (by norm_num)).2
    (by decide)
  rw [h]
  norm_num

/-- C3 (counterexample): the negative result of `load_model` is not
cached — after a first call with the file absent, a second call with the
file present performs disk I/O again and loads the artifact, where the
claim requires `Unavailable` with no disk access. -/
theorem load_model_negative_cache_counterexample :
    (load_model false 7 none).result = none ∧
    (load_model true 7 (load_model false 7 none).cache).result = some 7 ∧
    (load_model true 7 (load_model false 7 none).cache).disk_checked = true :=
  ⟨rfl, rfl, rfl⟩

/-- C3 (amended): when the artifact file is absent the call returns
`Unavailable` but leaves the cache empty; every call with an empty cache
re-checks the filesystem (so disk I/O is retried) and loads the artifact if
it has appeared; only a successful load is cached, and a filled cache is
returned without disk access. -/
theorem load_model_no_negative_cache (e : Bool) (a : ℕ) (c : Option ℕ) :
    ((load_model false a none).result = none ∧ (load_model false a none).cache = none ∧
      (load_model false a none).disk_checked = true) ∧
    (c = none → (load_model e a c).disk_checked = true ∧
      (load_model e a c).result = (if e then some a else none)) ∧
    (∀ m, c = some m → (load_model e a c).result = some m ∧
      (load_model e a c).disk_checked = false) := by
  refine ⟨⟨rfl, rfl, rfl⟩, ?_, ?_⟩
  · rintro rfl
    cases e <;> exact ⟨rfl, rfl⟩
  · rintro m rfl
    exact ⟨rfl, rfl⟩

/-- C3 (witness): with an empty cache and the file present, the call checks
the disk and loads the artifact. -/
theorem load_model_no_negative_cache_witness :
    (load_model true 0 none).disk_checked = true ∧
    (load_model true 0 none).result = some 0 := by
  have h := (load_model_no_negative_cache true 0 none).2.1 rfl
  exact ⟨h.1, by simpa using h.2⟩

/-- C4 (counterexample): the record returned by `compute_clinical_risk`
carries no `score` key — at the concrete input PNEUMONIA / 90 / Severe the
dict has a `level` entry but looking up `score` yields nothing. -/
theorem risk_no_score_field_counterexample :
    (compute_clinical_risk "PNEUMONIA" 90 "Severe" none).lookup "score" = none ∧
    (compute_clinical_risk "PNEUMONIA" 90 "Severe" none).lookup "level"
      = some "Severe" := by
  have h : pyUpper "PNEUMONIA" ≠ "NORMAL" := by decide
  have hsc : clinical_risk_score 90 "Severe" none = 76 := by
    rw [crs_severe]
    norm_num [spo2_bonus]
  have hbr : compute_clinical_risk "PNEUMONIA" 90 "Severe" none
      = [("level", "Severe"), ("color", "orange"), ("class", "risk-severe")] := by
    simp only [compute_clinical_risk, if_neg h, hsc]
    norm_num
  rw [hbr]
  exact ⟨rfl, rfl⟩

/-- C4 (amended): every result of `compute_clinical_risk` is a record with
exactly the keys `level`, `color` and `class` — a level drawn from the five
tiers plus presentation attributes, but no numeric `score` field; the score
is internal to the computation. -/
theorem risk_record_shape (p : String) (conf : ℚ) (sev : String) (spo2 : Option ℚ) :
    (compute_clinical_risk p conf sev spo2).map Prod.fst = ["level", "color", "class"] ∧
    (compute_clinical_risk p conf sev spo2).lookup "score" = none ∧
    ∃ lv, (compute_clinical_risk p conf sev spo2).lookup "level" = some lv ∧
      (lv = "Stable" ∨ lv = "Critical" ∨ lv = "Severe" ∨ lv = "Moderate" ∨
        lv = "Mild") := by
  simp only [compute_clinical_risk]
  split_ifs <;> exact ⟨rfl, rfl, _, rfl, by simp⟩

/-- C7 (counterexample): lowering a supplied spo2 from 1 to 0 strictly
lowers the score (60 drops to 10), because the source's truthiness guard
discards a reading of exactly 0 — refuting unconditional monotonicity in
the oxygen input. -/
theorem risk_monotone_spo2_counterexample :
    clinical_risk_score 0 "Mild" (some 0) < clinical_risk_score 0 "Mild" (some 1) ∧
    clinical_risk_score 0 "Mild" (some 0) = 10 ∧
    clinical_risk_score 0 "Mild" (some 1) = 60 := by
  refine ⟨?_, ?_, ?_⟩ <;> rw [crs_mild] <;> try rw [crs_mild]
  all_goals norm_num [spo2_bonus]

/-- C7 (amended): the score is monotone non-decreasing in the severity tier
and in the confidence, and monotone non-increasing in a supplied spo2 as
long as neither reading is exactly 0 (a 0 reading is dropped by the
source's truthiness guard). -/
theorem clinical_risk_score_monotone (conf conf' : ℚ) (sev : String) (spo2 : Option ℚ)
    (x y : ℚ) :
    (clinical_risk_score conf "Mild" spo2 ≤ clinical_risk_score conf "Moderate" spo2 ∧
      clinical_risk_score conf "Moderate" spo2 ≤ clinical_risk_score conf "Severe" spo2) ∧
    (conf ≤ conf' → clinical_risk_score conf sev spo2 ≤ clinical_risk_score conf' sev spo2) ∧
    (x ≠ 0 → y ≠ 0 → y ≤ x →
      clinical_risk_score conf sev (some x) ≤ clinical_risk_score conf sev (some y)) := by
  refine ⟨⟨?_, ?_⟩, ?_, ?_⟩
  · rw [crs_mild, crs_moderate]
    linarith
  · rw [crs_moderate, crs_severe]
    linarith
  · intro h
    simp only [clinical_risk_score]
    have : conf * (4 / 10) ≤ conf' * (4 / 10) := by linarith
    linarith
  · intro hx hy hxy
    simp only [clinical_risk_score]
    have hbx : spo2_bonus (some x) ≤ spo2_bonus (some y) := by
      simp only [spo2_bonus, if_neg hx, if_neg hy]
      split_ifs <;> linarith
    linarith

/-- C7 (witness): at confidence 50, Moderate severity, moving a supplied
spo2 down from 90 to 84 does not lower the score, and raising confidence
from 50 to 60 does not lower it either. -/
theorem clinical_risk_score_monotone_witness :
    clinical_risk_score 50 "Moderate" (some 90) ≤
      clinical_risk_score 50 "Moderate" (some 84) ∧
    clinical_risk_score 50 "Moderate" none ≤ clinical_risk_score 60 "Moderate" none := by
  constructor
  · exact (clinical_risk_score_monotone 50 50 "Moderate" none 90 84).2.2
      (by norm_num) (by norm_num) (by norm_num)
  · exact (clinical_risk_score_monotone 50 60 "Moderate" none 0 0).2.1 (by norm_num)

/-- C10: the two no-finding tests disagree on case — `compute_clinical_risk`
upper-cases its label, so the lowercase label `normal` yields level
`Stable`, while `get_severity` compares exactly against `NORMAL` and
therefore assigns the lowercase label a disease tier instead of `N/A`. -/
theorem severity_risk_case_mismatch (conf : ℚ) (sev : String) (spo2 : Option ℚ) :
    pyUpper "normal" = "NORMAL" ∧
    (compute_clinical_risk "normal" conf sev spo2).lookup "level" = some "Stable" ∧
    get_severity "normal" conf ≠ "N/A" ∧
    (get_severity "normal" conf = "Severe" ∨ get_severity "normal" conf = "Moderate" ∨
      get_severity "normal" conf = "Mild") := by
  have hu : pyUpper "normal" = "NORMAL" := by decide
  have hl : ("normal" : String) ≠ "NORMAL" := by decide
  refine ⟨hu, ?_, ?_, ?_⟩
  · simp [compute_clinical_risk, hu, List.lookup]
  · simp only [get_severity, if_neg hl]
    split_ifs <;> simp
  · simp only [get_severity, if_neg hl]
    split_ifs <;> simp

/-- A model whose layer graph holds no `Conv2D` anywhere: one dense layer. -/
def noConvModel : PyModel := ⟨[Layer.node "dense_1" false false []]⟩

/-- A model made of a feature-extractor sub-model holding one `Conv2D`,
followed by a dense head — the usual arrangement of the trained artifact. -/
def convModel : PyModel :=
  ⟨[Layer.node "mobilenetv2" false true [Layer.node "Conv_1" true false []],
    Layer.node "dense_head" false false []]⟩

/-- An environment in which every fallible step succeeds and the gradient
step produces an all-negative channel-weighted saliency map. -/
def degenerateEnv : GradEnv :=
  { preprocessOk := Except.ok ()
    graphBuild := Except.ok ()
    forwardGrad := Except.ok ([[1]], [-1])
    imreadOk := Except.ok ()
    writeOk := fun _ => Except.ok () }

/-- An environment whose preprocessing step raises an exception. -/
def failEnv : GradEnv :=
  { preprocessOk := Except.error "DecodeError"
    graphBuild := Except.ok ()
    forwardGrad := Except.ok ([[1]], [1])
    imreadOk := Except.ok ()
    writeOk := fun _ => Except.ok () }

/-- C5: `generate_gradcam` never propagates a failure — it returns `none`
when the model is unavailable, `none` when the layer search finds no
convolution layer, and `none` whenever any step of the body raises; its
value is always `none` or a path; and the classification result of the
same request does not depend on the Grad-CAM environment at all. -/
theorem generate_gradcam_total_spec (modelOpt : Option PyModel) (env : GradEnv)
    (p : String) :
    (modelOpt = none → generate_gradcam modelOpt env p = none) ∧
    (∀ m, modelOpt = some m → findLastConv m = none →
      generate_gradcam modelOpt env p = none) ∧
    (∀ m e, modelOpt = some m → gradcam_aux m env p = Except.error e →
      generate_gradcam modelOpt env p = none) ∧
    (generate_gradcam modelOpt env p = none ∨
      ∃ q, generate_gradcam modelOpt env p = some q) ∧
    (∀ mo dl dc dr env' hp,
      (handle_request mo dl dc dr modelOpt env hp).1
        = (handle_request mo dl dc dr modelOpt env' hp).1) := by
  refine ⟨?_, ?_, ?_, ?_, ?_⟩
  · rintro rfl
    rfl
  · rintro m rfl hconv
    rcases hpre : env.preprocessOk with e | u
    · simp [generate_gradcam, gradcam_aux, hpre]
    · simp [generate_gradcam, gradcam_aux, hpre, hconv]
  · rintro m e rfl herr
    simp [generate_gradcam, herr]
  · rcases h : generate_gradcam modelOpt env p with _ | q
    · exact Or.inl rfl
    · exact Or.inr ⟨q, rfl⟩
  · intro mo dl dc dr env' hp
    rfl

/-- C5 (witness): a model with no convolution layer yields `none`, and a
raising preprocessing step on a convolutional model also yields `none`. -/
theorem generate_gradcam_total_spec_witness :
    generate_gradcam (some noConvModel) degenerateEnv "hm.png" = none ∧
    generate_gradcam (some convModel) failEnv "hm.png" = none := by
  constructor
  · exact (generate_gradcam_total_spec (some noConvModel) degenerateEnv "hm.png").2.1
      noConvModel rfl rfl
  · exact (generate_gradcam_total_spec (some convModel) failEnv "hm.png").2.2.1
      convModel "DecodeError" rfl rfl

/-- C9 (counterexample): a degenerate saliency map (all channel-weighted
values negative, so the clipped heatmap is all-zero) is not detected by the
source: with every I/O step succeeding, the all-zero heatmap is still
written and the save path returned, where the claim requires `none`. -/
theorem gradcam_degenerate_counterexample :
    generate_gradcam (some convModel) degenerateEnv "heatmap.png" = some "heatmap.png" ∧
    matVec [[1]] [-1] = [-1] ∧
    normalizeHeat (matVec [[1]] [-1]) = [0] := by
  refine ⟨rfl, ?_, ?_⟩
  · norm_num [matVec, dotProd]
  · norm_num [normalizeHeat, matVec, dotProd, listMax]

/-- C9 (amended): when the channel-weighted saliency is everywhere
non-positive, the normalization clips it to the all-zero heatmap, and
`generate_gradcam` still writes the (uninformative) overlay and returns the
save path rather than treating the degenerate map as a failure. -/
theorem gradcam_degenerate_writes_heatmap (m : PyModel) (env : GradEnv) (p : String)
    (co : List (List ℚ)) (pw : List ℚ) (base : Layer) (convName : String)
    (hpre : env.preprocessOk = Except.ok ())
    (hfind : findLastConv m = some convName)
    (hhead : m.layers.head? = some base)
    (hbm : base.isModel = true)
    (hget : (getLayer base convName).isSome)
    (hgb : env.graphBuild = Except.ok ())
    (hfg : env.forwardGrad = Except.ok (co, pw))
    (hdeg : ∀ v ∈ matVec co pw, v ≤ 0)
    (hir : env.imreadOk = Except.ok ())
    (hw : ∀ d, env.writeOk d = Except.ok ()) :
    generate_gradcam (some m) env p = some p ∧
    ∀ u ∈ normalizeHeat (matVec co pw), u = 0 := by
  constructor
  · obtain ⟨tl, htl⟩ := Option.isSome_iff_exists.mp hget
    simp [generate_gradcam, gradcam_aux, hpre, hfind, hhead, hbm, htl, hgb, hfg, hir, hw]
  · intro u hu
    simp only [normalizeHeat, List.mem_map] at hu
    obtain ⟨v, hv, rfl⟩ := hu
    rw [max_eq_right (hdeg v hv), zero_div]

/-- C9 (witness): the degenerate-saliency scenario at a concrete model and
environment — the path is returned. -/
theorem gradcam_degenerate_writes_heatmap_witness :
    generate_gradcam (some convModel) degenerateEnv "cam.png" = some "cam.png" := by
  have hdeg : ∀ v ∈ matVec [[1]] [-1], v ≤ 0 := by
    intro v hv
    have hm : matVec [[1]] [-1] = [-1] := by norm_num [matVec, dotProd]
    rw [hm] at hv
    simp at hv
    rw [hv]
    norm_num
  exact (gradcam_degenerate_writes_heatmap convModel degenerateEnv "cam.png" [[1]] [-1]
    (Layer.node "mobilenetv2" false true [Layer.node "Conv_1" true false []]) "Conv_1"
    rfl rfl rfl rfl rfl rfl rfl hdeg rfl (fun _ => rfl)).1

lemma round4_err (x : ℚ) : |pyRound 4 x - x| ≤ 1/20000 := by
  have h := abs_sub_round (x * 10 ^ 4)
  rw [pyRound]
  rw [abs_le] at h ⊢
  constructor <;> nlinarith

lemma round4_lt (x y : ℚ) (h : x + 1/10000 < y) : pyRound 4 x < pyRound 4 y := by
  have hx := round4_err x
  have hy := round4_err y
  rw [abs_le] at hx hy
  linarith

lemma argmax4_pos0 (x0 x1 x2 x3 : ℚ) (h1 : x1 < x0) (h2 : x2 < x0) (h3 : x3 < x0) :
    pyArgmax [x0, x1, x2, x3] = 0 := by
  simp only [pyArgmax, pyArgmaxAux]
  split_ifs <;> first | rfl | (exfalso; linarith)

lemma argmax4_pos1 (x0 x1 x2 x3 : ℚ) (h0 : x0 < x1) (h2 : x2 < x1) (h3 : x3 < x1) :
    pyArgmax [x0, x1, x2, x3] = 1 := by
  simp only [pyArgmax, pyArgmaxAux]
  split_ifs <;> first | rfl | (exfalso; linarith)

lemma argmax4_pos2 (x0 x1 x2 x3 : ℚ) (h0 : x0 < x2) (h1 : x1 < x2) (h3 : x3 < x2) :
    pyArgmax [x0, x1, x2, x3] = 2 := by
  simp only [pyArgmax, pyArgmaxAux]
  split_ifs <;> first | rfl | (exfalso; linarith)

lemma argmax4_pos3 (x0 x1 x2 x3 : ℚ) (h0 : x0 < x3) (h1 : x1 < x3) (h2 : x2 < x3) :
    pyArgmax [x0, x1, x2, x3] = 3 := by
  simp only [pyArgmax, pyArgmaxAux]
  split_ifs <;> first | rfl | (exfalso; linarith)

lemma demo_core (c a b d : ℚ)
    (hc1 : 3/5 - 1/20000 ≤ c) (hc2 : c ≤ 49/50 + 1/20000)
    (ha1 : 1/100 - 1/20000 ≤ a) (ha2 : a ≤ 1/10 + 1/20000)
    (hb1 : 1/100 - 1/20000 ≤ b) (hb2 : b ≤ 1/10 + 1/20000)
    (hd1 : 1/100 - 1/20000 ≤ d) (hd2 : d ≤ 1/10 + 1/20000) :
    0 < c + a + b + d ∧
    |pyRound 4 (c / (c+a+b+d)) + pyRound 4 (a / (c+a+b+d)) + pyRound 4 (b / (c+a+b+d))
      + pyRound 4 (d / (c+a+b+d)) - 1| ≤ 1/1000 ∧
    pyRound 4 (a / (c+a+b+d)) < pyRound 4 (c / (c+a+b+d)) ∧
    pyRound 4 (b / (c+a+b+d)) < pyRound 4 (c / (c+a+b+d)) ∧
    pyRound 4 (d / (c+a+b+d)) < pyRound 4 (c / (c+a+b+d)) := by
  have htpos : (0:ℚ) < c + a + b + d := by linarith
  have htne : c + a + b + d ≠ 0 := ne_of_gt htpos
  have hsum : c/(c+a+b+d) + a/(c+a+b+d) + b/(c+a+b+d) + d/(c+a+b+d) = 1 := by
    rw [div_add_div_same, div_add_div_same, div_add_div_same]
    exact div_self htne
  have dom : ∀ z : ℚ, z ≤ 1/10 + 1/20000 →
      pyRound 4 (z / (c+a+b+d)) < pyRound 4 (c / (c+a+b+d)) := by
    intro z hz
    apply round4_lt
    have h1 : (c+a+b+d) * (1/10000) < c - z := by linarith
    have h2 : 1/10000 < (c - z) / (c+a+b+d) := by
      rw [lt_div_iff htpos]
      linarith
    rw [sub_div] at h2
    linarith
  refine ⟨htpos, ?_, dom a ha2, dom b hb2, dom d hd2⟩
  have e1 := round4_err (c/(c+a+b+d))
  have e2 := round4_err (a/(c+a+b+d))
  have e3 := round4_err (b/(c+a+b+d))
  have e4 := round4_err (d/(c+a+b+d))
  rw [abs_le] at e1 e2 e3 e4 ⊢
  constructor <;> linarith


lemma len4_explode {α : Type} (l : List α) (h : l.length = 4) :
    ∃ a b c d, l = [a, b, c, d] :=
  let [a, b, c, d] := l
  ⟨a, b, c, d, rfl⟩

lemma round4_ge (x lo : ℚ) (h : lo ≤ x) : lo - 1/20000 ≤ pyRound 4 x := by
  have := round4_err x
  rw [abs_le] at this
  linarith

lemma round4_le (x hi : ℚ) (h : x ≤ hi) : pyRound 4 x ≤ hi + 1/20000 := by
  have := round4_err x
  rw [abs_le] at this
  linarith

lemma demoResult_spec (label : String) (conf : ℚ) (rs : List ℚ)
    (hlab : label ∈ CLASS_NAMES) (hlen : rs.length = 4)
    (hc1 : 3/5 ≤ conf) (hc2 : conf ≤ 49/50)
    (hr : ∀ r ∈ rs, 1/100 ≤ r ∧ r ≤ 1/10) :
    (demoResult label conf rs).demo_mode = true ∧
    (demoResult label conf rs).prediction = label ∧
    (demoResult label conf rs).severity = get_severity label conf ∧
    (demoResult label conf rs).risk
      = compute_clinical_risk label (conf * 100) (get_severity label conf) ∧
    (demoResult label conf rs).confidence = pyRound 4 conf ∧
    |(((demoResult label conf rs).probabilities.map Prod.snd).sum) - 1| ≤ 1/1000 ∧
    (∃ L, (demoResult label conf rs).probabilities.lookup label = some L ∧
      ∀ q ∈ (demoResult label conf rs).probabilities, q.1 ≠ label → q.2 < L) ∧
    CLASS_NAMES.getD (pyArgmax ((demoResult label conf rs).probabilities.map Prod.snd)) ""
      = label := by
  obtain ⟨r0, r1, r2, r3, rfl⟩ := len4_explode rs hlen
  have h0 := hr r0 (by simp)
  have h1 := hr r1 (by simp)
  have h2 := hr r2 (by simp)
  have h3 := hr r3 (by simp)
  have hC1 := round4_ge conf (3/5) hc1
  have hC2 := round4_le conf (49/50) hc2
  have h01 := round4_ge r0 (1/100) h0.1
  have h02 := round4_le r0 (1/10) h0.2
  have h11 := round4_ge r1 (1/100) h1.1
  have h12 := round4_le r1 (1/10) h1.2
  have h21 := round4_ge r2 (1/100) h2.1
  have h22 := round4_le r2 (1/10) h2.2
  have h31 := round4_ge r3 (1/100) h3.1
  have h32 := round4_le r3 (1/10) h3.2
  have hlab' : label = "COVID19" ∨ label = "NORMAL" ∨ label = "PNEUMONIA" ∨
      label = "TUBERCULOSIS" := by simpa [CLASS_NAMES] using hlab
  rcases hlab' with rfl | rfl | rfl | rfl
  · -- label = "COVID19", position 0
    have hT : pyRound 4 conf + (pyRound 4 r1 + (pyRound 4 r2 + (pyRound 4 r3 + 0)))
        = pyRound 4 conf + pyRound 4 r1 + pyRound 4 r2 + pyRound 4 r3 := by ring
    have hp : (demoResult "COVID19" conf [r0, r1, r2, r3]).probabilities
        = [("COVID19", pyRound 4 (pyRound 4 conf /
              (pyRound 4 conf + (pyRound 4 r1 + (pyRound 4 r2 + (pyRound 4 r3 + 0)))))),
           ("NORMAL", pyRound 4 (pyRound 4 r1 /
              (pyRound 4 conf + (pyRound 4 r1 + (pyRound 4 r2 + (pyRound 4 r3 + 0)))))),
           ("PNEUMONIA", pyRound 4 (pyRound 4 r2 /
              (pyRound 4 conf + (pyRound 4 r1 + (pyRound 4 r2 + (pyRound 4 r3 + 0)))))),
           ("TUBERCULOSIS", pyRound 4 (pyRound 4 r3 /
              (pyRound 4 conf + (pyRound 4 r1 + (pyRound 4 r2 + (pyRound 4 r3 + 0))))))] := rfl
    rw [hT] at hp
    obtain ⟨-, hsum, hda, hdb, hdd⟩ := demo_core (pyRound 4 conf) (pyRound 4 r1)
      (pyRound 4 r2) (pyRound 4 r3) hC1 hC2 h11 h12 h21 h22 h31 h32
    refine ⟨rfl, rfl, rfl, rfl, rfl, ?_, ?_, ?_⟩
    · rw [hp]
      simp only [List.map_cons, List.map_nil, List.sum_cons, List.sum_nil]
      rw [abs_le] at hsum ⊢
      constructor <;> linarith
    · rw [hp]
      refine ⟨_, rfl, ?_⟩
      intro q hq hne
      simp only [List.mem_cons, List.not_mem_nil, or_false] at hq
      rcases hq with rfl | rfl | rfl | rfl
      · exact absurd rfl hne
      · exact hda
      · exact hdb
      · exact hdd
    · rw [hp]
      simp only [List.map_cons, List.map_nil]
      rw [argmax4_pos0 _ _ _ _ hda hdb hdd]
      rfl
  · -- label = "NORMAL", position 1
    have hT : pyRound 4 r0 + (pyRound 4 conf + (pyRound 4 r2 + (pyRound 4 r3 + 0)))
        = pyRound 4 conf + pyRound 4 r0 + pyRound 4 r2 + pyRound 4 r3 := by ring
    have hp : (demoResult "NORMAL" conf [r0, r1, r2, r3]).probabilities
        = [("COVID19", pyRound 4 (pyRound 4 r0 /
              (pyRound 4 r0 + (pyRound 4 conf + (pyRound 4 r2 + (pyRound 4 r3 + 0)))))),
           ("NORMAL", pyRound 4 (pyRound 4 conf /
              (pyRound 4 r0 + (pyRound 4 conf + (pyRound 4 r2 + (pyRound 4 r3 + 0)))))),
           ("PNEUMONIA", pyRound 4 (pyRound 4 r2 /
              (pyRound 4 r0 + (pyRound 4 conf + (pyRound 4 r2 + (pyRound 4 r3 + 0)))))),
           ("TUBERCULOSIS", pyRound 4 (pyRound 4 r3 /
              (pyRound 4 r0 + (pyRound 4 conf + (pyRound 4 r2 + (pyRound 4 r3 + 0))))))] := rfl
    rw [hT] at hp
    obtain ⟨-, hsum, hda, hdb, hdd⟩ := demo_core (pyRound 4 conf) (pyRound 4 r0)
      (pyRound 4 r2) (pyRound 4 r3) hC1 hC2 h01 h02 h21 h22 h31 h32
    refine ⟨rfl, rfl, rfl, rfl, rfl, ?_, ?_, ?_⟩
    · rw [hp]
      simp only [List.map_cons, List.map_nil, List.sum_cons, List.sum_nil]
      rw [abs_le] at hsum ⊢
      constructor <;> linarith
    · rw [hp]
      refine ⟨_, rfl, ?_⟩
      intro q hq hne
      simp only [List.mem_cons, List.not_mem_nil, or_false] at hq
      rcases hq with rfl | rfl | rfl | rfl
      · exact hda
      · exact absurd rfl hne
      · exact hdb
      · exact hdd
    · rw [hp]
      simp only [List.map_cons, List.map_nil]
      rw [argmax4_pos1 _ _ _ _ hda hdb hdd]
      rfl
  · -- label = "PNEUMONIA", position 2
    have hT : pyRound 4 r0 + (pyRound 4 r1 + (pyRound 4 conf + (pyRound 4 r3 + 0)))
        = pyRound 4 conf + pyRound 4 r0 + pyRound 4 r1 + pyRound 4 r3 := by ring
    have hp : (demoResult "PNEUMONIA" conf [r0, r1, r2, r3]).probabilities
        = [("COVID19", pyRound 4 (pyRound 4 r0 /
              (pyRound 4 r0 + (pyRound 4 r1 + (pyRound 4 conf + (pyRound 4 r3 + 0)))))),
           ("NORMAL", pyRound 4 (pyRound 4 r1 /
              (pyRound 4 r0 + (pyRound 4 r1 + (pyRound 4 conf + (pyRound 4 r3 + 0)))))),
           ("PNEUMONIA", pyRound 4 (pyRound 4 conf /
              (pyRound 4 r0 + (pyRound 4 r1 + (pyRound 4 conf + (pyRound 4 r3 + 0)))))),
           ("TUBERCULOSIS", pyRound 4 (pyRound 4 r3 /
              (pyRound 4 r0 + (pyRound 4 r1 + (pyRound 4 conf + (pyRound 4 r3 + 0))))))] := rfl
    rw [hT] at hp
    obtain ⟨-, hsum, hda, hdb, hdd⟩ := demo_core (pyRound 4 conf) (pyRound 4 r0)
      (pyRound 4 r1) (pyRound 4 r3) hC1 hC2 h01 h02 h11 h12 h31 h32
    refine ⟨rfl, rfl, rfl, rfl, rfl, ?_, ?_, ?_⟩
    · rw [hp]
      simp only [List.map_cons, List.map_nil, List.sum_cons, List.sum_nil]
      rw [abs_le] at hsum ⊢
      constructor <;> linarith
    · rw [hp]
      refine ⟨_, rfl, ?_⟩
      intro q hq hne
      simp only [List.mem_cons, List.not_mem_nil, or_false] at hq
      rcases hq with rfl | rfl | rfl | rfl
      · exact hda
      · exact hdb
      · exact absurd rfl hne
      · exact hdd
    · rw [hp]
      simp only [List.map_cons, List.map_nil]
      rw [argmax4_pos2 _ _ _ _ hda hdb hdd]
      rfl
  · -- label = "TUBERCULOSIS", position 3
    have hT : pyRound 4 r0 + (pyRound 4 r1 + (pyRound 4 r2 + (pyRound 4 conf + 0)))
        = pyRound 4 conf + pyRound 4 r0 + pyRound 4 r1 + pyRound 4 r2 := by ring
    have hp : (demoResult "TUBERCULOSIS" conf [r0, r1, r2, r3]).probabilities
        = [("COVID19", pyRound 4 (pyRound 4 r0 /
              (pyRound 4 r0 + (pyRound 4 r1 + (pyRound 4 r2 + (pyRound 4 conf + 0)))))),
           ("NORMAL", pyRound 4 (pyRound 4 r1 /
              (pyRound 4 r0 + (pyRound 4 r1 + (pyRound 4 r2 + (pyRound 4 conf + 0)))))),
           ("PNEUMONIA", pyRound 4 (pyRound 4 r2 /
              (pyRound 4 r0 + (pyRound 4 r1 + (pyRound 4 r2 + (pyRound 4 conf + 0)))))),
           ("TUBERCULOSIS", pyRound 4 (pyRound 4 conf /
              (pyRound 4 r0 + (pyRound 4 r1 + (pyRound 4 r2 + (pyRound 4 conf + 0))))))] := rfl
    rw [hT] at hp
    obtain ⟨-, hsum, hda, hdb, hdd⟩ := demo_core (pyRound 4 conf) (pyRound 4 r0)
      (pyRound 4 r1) (pyRound 4 r2) hC1 hC2 h01 h02 h11 h12 h21 h22
    refine ⟨rfl, rfl, rfl, rfl, rfl, ?_, ?_, ?_⟩
    · rw [hp]
      simp only [List.map_cons, List.map_nil, List.sum_cons, List.sum_nil]
      rw [abs_le] at hsum ⊢
      constructor <;> linarith
    · rw [hp]
      refine ⟨_, rfl, ?_⟩
      intro q hq hne
      simp only [List.mem_cons, List.not_mem_nil, or_false] at hq
      rcases hq with rfl | rfl | rfl | rfl
      · exact hda
      · exact hdb
      · exact hdd
      · exact absurd rfl hne
    · rw [hp]
      simp only [List.map_cons, List.map_nil]
      rw [argmax4_pos3 _ _ _ _ hda hdb hdd]
      rfl


lemma argmax4_cases (x0 x1 x2 x3 : ℚ) :
    pyArgmax [x0, x1, x2, x3] = 0 ∨ pyArgmax [x0, x1, x2, x3] = 1 ∨
    pyArgmax [x0, x1, x2, x3] = 2 ∨ pyArgmax [x0, x1, x2, x3] = 3 := by
  simp only [pyArgmax, pyArgmaxAux]
  split_ifs <;> norm_num

/-- C6 (amended): while the model artifact is unavailable, every call
returns `demo_mode = true`, a label from the fixed class set, a probability
vector that is renormalized (summing to 1 within 1e-3 — exact unity fails
because each renormalized entry is re-rounded to 4 digits) with its
dominant (strictly maximal) mass on the returned label, and severity and
risk computed by the same `get_severity` and `compute_clinical_risk`
functions as a real result; conversely, when a model output is available
the result has `demo_mode = false`.  The draw hypotheses mirror the
source's `random.uniform(0.60, 0.98)` and `random.uniform(0.01, 0.1)`. -/
theorem demo_mode_spec (label : String) (conf : ℚ) (rs : List ℚ)
    (hlab : label ∈ CLASS_NAMES) (hlen : rs.length = 4)
    (hc1 : 3/5 ≤ conf) (hc2 : conf ≤ 49/50)
    (hr : ∀ r ∈ rs, 1/100 ≤ r ∧ r ≤ 1/10) :
    (predict_xray none label conf rs).demo_mode = true ∧
    (predict_xray none label conf rs).prediction ∈ CLASS_NAMES ∧
    |(((predict_xray none label conf rs).probabilities.map Prod.snd).sum) - 1| ≤ 1/1000 ∧
    (∃ L, (predict_xray none label conf rs).probabilities.lookup
        ((predict_xray none label conf rs).prediction) = some L ∧
      ∀ q ∈ (predict_xray none label conf rs).probabilities,
        q.1 ≠ (predict_xray none label conf rs).prediction → q.2 < L) ∧
    (predict_xray none label conf rs).severity = get_severity label conf ∧
    (predict_xray none label conf rs).risk
      = compute_clinical_risk label (conf * 100) (get_severity label conf) ∧
    (∀ preds, (predict_xray (some preds) label conf rs).demo_mode = false) := by
  obtain ⟨hm, hpr, hsev, hrisk, hconf, hsumb, hdom, hargm⟩ :=
    demoResult_spec label conf rs hlab hlen hc1 hc2 hr
  have e : predict_xray none label conf rs = demoResult label conf rs := rfl
  rw [e, hpr]
  exact ⟨hm, hlab, hsumb, hdom, hsev, hrisk, fun preds => rfl⟩

/-- C6 (witness): the demo branch at a concrete draw. -/
theorem demo_mode_spec_witness :
    (predict_xray none "COVID19" (7/10) [3/100, 3/100, 3/100, 3/100]).demo_mode = true ∧
    |(((predict_xray none "COVID19" (7/10)
        [3/100, 3/100, 3/100, 3/100]).probabilities.map Prod.snd).sum) - 1| ≤ 1/1000 := by
  have h := demo_mode_spec "COVID19" (7/10) [3/100, 3/100, 3/100, 3/100]
    (by simp [CLASS_NAMES]) rfl (by norm_num) (by norm_num)
    (by
      intro r hrr
      simp only [List.mem_cons, List.not_mem_nil, or_false] at hrr
      rcases hrr with rfl | rfl | rfl | rfl <;> norm_num)
  exact ⟨h.1, h.2.2.1⟩

/-- C6 (counterexample): the demo probability vector does not sum to
exactly 1 — at draws conf = 0.7 and residuals 0.03 the renormalized,
re-rounded entries are 0.8861 + 3 x 0.038, which sums to 1.0001. -/
theorem demo_probs_sum_counterexample :
    (((predict_xray none "PNEUMONIA" (7/10) [3/100, 3/100, 5/100, 3/100]).probabilities.map
        Prod.snd).sum) = 10001/10000 ∧ (10001/10000 : ℚ) ≠ 1 := by
  have e1 : pyRound 4 ((3:ℚ)/100) = 3/100 := by norm_num [pyRound, round_eq]
  have e2 : pyRound 4 ((7:ℚ)/10) = 7/10 := by norm_num [pyRound, round_eq]
  have hp : (predict_xray none "PNEUMONIA" (7/10) [3/100, 3/100, 5/100, 3/100]).probabilities
      = [("COVID19", pyRound 4 (pyRound 4 ((3:ℚ)/100) /
            (pyRound 4 ((3:ℚ)/100) + (pyRound 4 ((3:ℚ)/100) +
              (pyRound 4 ((7:ℚ)/10) + (pyRound 4 ((3:ℚ)/100) + 0)))))),
         ("NORMAL", pyRound 4 (pyRound 4 ((3:ℚ)/100) /
            (pyRound 4 ((3:ℚ)/100) + (pyRound 4 ((3:ℚ)/100) +
              (pyRound 4 ((7:ℚ)/10) + (pyRound 4 ((3:ℚ)/100) + 0)))))),
         ("PNEUMONIA", pyRound 4 (pyRound 4 ((7:ℚ)/10) /
            (pyRound 4 ((3:ℚ)/100) + (pyRound 4 ((3:ℚ)/100) +
              (pyRound 4 ((7:ℚ)/10) + (pyRound 4 ((3:ℚ)/100) + 0)))))),
         ("TUBERCULOSIS", pyRound 4 (pyRound 4 ((3:ℚ)/100) /
            (pyRound 4 ((3:ℚ)/100) + (pyRound 4 ((3:ℚ)/100) +
              (pyRound 4 ((7:ℚ)/10) + (pyRound 4 ((3:ℚ)/100) + 0))))))] := rfl
  rw [e1, e2] at hp
  have hT : (3:ℚ)/100 + (3/100 + (7/10 + (3/100 + 0))) = 79/100 := by norm_num
  rw [hT] at hp
  have e3 : pyRound 4 ((3:ℚ)/100 / (79/100)) = 380/10000 := by norm_num [pyRound, round_eq]
  have e4 : pyRound 4 ((7:ℚ)/10 / (79/100)) = 8861/10000 := by norm_num [pyRound, round_eq]
  rw [e3, e4] at hp
  rw [hp]
  constructor
  · simp only [List.map_cons, List.map_nil, List.sum_cons, List.sum_nil]
    norm_num
  · norm_num

/-- C8 (amended): in both paths the returned vector sums to 1 within 1e-3
(for real inference this is inherited from the model's softmax output, here
a hypothesis on `preds`), and the label is the arg-max of the returned
vector; but the returned confidence is the arg-max probability *rounded to
4 decimal places* (real path), and in demo mode the rounded drawn
confidence — not the renormalized vector entry. -/
theorem predict_vector_spec (preds : List ℚ) (label : String) (conf : ℚ) (rs : List ℚ)
    (h4 : preds.length = 4) (hsum : |preds.sum - 1| ≤ 1/1000)
    (hlab : label ∈ CLASS_NAMES) (hlen : rs.length = 4)
    (hc1 : 3/5 ≤ conf) (hc2 : conf ≤ 49/50)
    (hr : ∀ r ∈ rs, 1/100 ≤ r ∧ r ≤ 1/10) :
    |(((predict_xray (some preds) label conf rs).probabilities.map Prod.snd).sum) - 1|
      ≤ 1/1000 ∧
    (predict_xray (some preds) label conf rs).prediction
      = CLASS_NAMES.getD (pyArgmax
          ((predict_xray (some preds) label conf rs).probabilities.map Prod.snd)) "" ∧
    (predict_xray (some preds) label conf rs).confidence
      = pyRound 4 (preds.getD (pyArgmax preds) 0) ∧
    (predict_xray (some preds) label conf rs).probabilities.lookup
        ((predict_xray (some preds) label conf rs).prediction)
      = some (preds.getD (pyArgmax preds) 0) ∧
    |(((predict_xray none label conf rs).probabilities.map Prod.snd).sum) - 1| ≤ 1/1000 ∧
    (predict_xray none label conf rs).prediction
      = CLASS_NAMES.getD (pyArgmax
          ((predict_xray none label conf rs).probabilities.map Prod.snd)) "" ∧
    (predict_xray none label conf rs).confidence = pyRound 4 conf := by
  obtain ⟨p0, p1, p2, p3, rfl⟩ := len4_explode preds h4
  obtain ⟨hm, hprd, hsev, hrisk, hconf, hsumb, hdom, hargm⟩ :=
    demoResult_spec label conf rs hlab hlen hc1 hc2 hr
  have ed : predict_xray none label conf rs = demoResult label conf rs := rfl
  refine ⟨hsum, rfl, rfl, ?_, ?_, ?_, ?_⟩
  · have e : predict_xray (some [p0, p1, p2, p3]) label conf rs
        = realResult [p0, p1, p2, p3] := rfl
    have hpr : (realResult [p0, p1, p2, p3]).probabilities
        = [("COVID19", p0), ("NORMAL", p1), ("PNEUMONIA", p2), ("TUBERCULOSIS", p3)] := rfl
    have epred : (realResult [p0, p1, p2, p3]).prediction
        = CLASS_NAMES.getD (pyArgmax [p0, p1, p2, p3]) "" := rfl
    rcases argmax4_cases p0 p1 p2 p3 with h | h | h | h <;>
      (rw [e, hpr, epred, h]; rfl)
  · rw [ed]
    exact hsumb
  · rw [ed, hprd]
    exact hargm.symm
  · rw [ed]
    exact hconf

/-- C8 (witness): a concrete softmax-like output [0.5, 0.25, 0.125,
0.125] together with a concrete demo draw. -/
theorem predict_vector_spec_witness :
    |(((predict_xray (some [1/2, 1/4, 1/8, 1/8]) "COVID19" (7/10)
        [3/100, 3/100, 3/100, 3/100]).probabilities.map Prod.snd).sum) - 1| ≤ 1/1000 ∧
    (predict_xray (some [1/2, 1/4, 1/8, 1/8]) "COVID19" (7/10)
        [3/100, 3/100, 3/100, 3/100]).confidence
      = pyRound 4 (([1/2, 1/4, 1/8, 1/8] : List ℚ).getD
          (pyArgmax [1/2, 1/4, 1/8, 1/8]) 0) := by
  have h := predict_vector_spec [1/2, 1/4, 1/8, 1/8] "COVID19" (7/10)
    [3/100, 3/100, 3/100, 3/100] rfl
    (by norm_num)
    (by simp [CLASS_NAMES]) rfl (by norm_num) (by norm_num)
    (by
      intro r hrr
      simp only [List.mem_cons, List.not_mem_nil, or_false] at hrr
      rcases hrr with rfl | rfl | rfl | rfl <;> norm_num)
  exact ⟨h.1, h.2.2.1⟩

/-- C8 (counterexample): the returned confidence does not equal the
probability mass that the vector assigns to the arg-max class — for the
model output 0.523456 on the winning class the vector entry is 0.523456
while the returned confidence is the rounded 0.5235. -/
theorem confidence_vector_mismatch_counterexample :
    ([523456/1000000, 2/10, 2/10, 76544/1000000] : List ℚ).sum = 1 ∧
    (predict_xray (some [523456/1000000, 2/10, 2/10, 76544/1000000]) "COVID19" (7/10)
        [3/100, 3/100, 3/100, 3/100]).prediction = "COVID19" ∧
    (predict_xray (some [523456/1000000, 2/10, 2/10, 76544/1000000]) "COVID19" (7/10)
        [3/100, 3/100, 3/100, 3/100]).probabilities.lookup "COVID19"
      = some (523456/1000000) ∧
    (predict_xray (some [523456/1000000, 2/10, 2/10, 76544/1000000]) "COVID19" (7/10)
        [3/100, 3/100, 3/100, 3/100]).confidence = 5235/10000 ∧
    (5235/10000 : ℚ) ≠ 523456/1000000 := by
  have ha : pyArgmax [523456/1000000, 2/10, 2/10, 76544/1000000] = 0 := by
    simp only [pyArgmax, pyArgmaxAux]
    norm_num
  have epred : (predict_xray (some [523456/1000000, 2/10, 2/10, 76544/1000000]) "COVID19"
      (7/10) [3/100, 3/100, 3/100, 3/100]).prediction
      = CLASS_NAMES.getD (pyArgmax [523456/1000000, 2/10, 2/10, 76544/1000000]) "" := rfl
  have econf : (predict_xray (some [523456/1000000, 2/10, 2/10, 76544/1000000]) "COVID19"
      (7/10) [3/100, 3/100, 3/100, 3/100]).confidence
      = pyRound 4 (([523456/1000000, 2/10, 2/10, 76544/1000000] : List ℚ).getD
          (pyArgmax [523456/1000000, 2/10, 2/10, 76544/1000000]) 0) := rfl
  refine ⟨by norm_num, ?_, rfl, ?_, by norm_num⟩
  · rw [epred, ha]
    rfl
  · rw [econf, ha]
    norm_num [pyRound, round_eq]


end LungAI
